import Mathlib

/-!
Verification of the OptiBlink splash-screen / emergency-contact-dialog module
(`splash_screen.py`) against its specification.

Shallow embedding notes:
* Python strings are Lean `String`; `str.strip()` becomes `pyStrip` below.
* Durations and progress values (Python floats used only as exact literals and
  one division) are modelled as rationals `ℚ`.
* The tkinter widget tree is not modelled; what the claims need is the
  observable behaviour: which widgets exist (`Option` fields mirroring the
  `None` checks in the source), the displayed progress/status, and a trace of
  observable events (surface allocation/destruction, progress/status updates,
  sleeps, error dialogs, error logs, callback invocation).
* Toolkit calls inside `update_progress`'s try-block are modelled as total
  state updates; the `except` branch at lines 152-153 of the source (which
  prints an error) fires only when the toolkit itself raises, which the
  embedding does not model.  The paths the claims are about (guard at line 143
  false, i.e. surface absent) return before the try-block in the source.
-/

/-- Whitespace characters stripped by Python `str.strip()` (ASCII range,
which covers every input appearing in the specification). -/
def pyIsSpace (c : Char) : Bool :=
  c = ' ' || c = '\t' || c = '\n' || c = '\r' || c = Char.ofNat 11 || c = Char.ofNat 12

/-- Python `str.strip()`: remove leading and trailing whitespace. -/
def pyStrip (s : String) : String :=
  String.mk (((s.toList.dropWhile pyIsSpace).reverse.dropWhile pyIsSpace).reverse)

/-! ## Emergency-contact dialog (`show_emergency_contact_dialog`, lines 224-383) -/

/-- The mutable result record of `show_emergency_contact_dialog`
(line 252: `result = {'contact': '', 'whatsapp_preference': False, 'cancelled': True}`). -/
structure ContactResult where
  contact : String
  whatsapp_preference : Bool
  cancelled : Bool
deriving DecidableEq

/-- Initial value of the result record (line 252). -/
def initResult : ContactResult := ⟨"", false, true⟩

/-- User-initiated events on the open dialog: pressing OK with the current
entry text and checkbox state (`ok_proceed`), pressing Cancel
(`cancel_close`), or closing the window (`on_closing` via WM_DELETE_WINDOW). -/
inductive DialogAction where
  | confirm (entry : String) (whatsapp : Bool)
  | cancel
  | close
deriving DecidableEq

/-- Observable events emitted by the dialog handlers: a blocking
`messagebox.showerror` notification, or `dialog.destroy()`. -/
inductive DialogEv where
  | showError (title msg : String)
  | destroyWindow
deriving DecidableEq

/-- Dialog session state: the shared `result` dict and whether the window is
still open (i.e. `dialog.destroy()` has not run and `mainloop` continues). -/
structure DialogState where
  result : ContactResult
  isOpen : Bool
deriving DecidableEq

/-- Dialog state when `mainloop` starts (window open, result at line 252). -/
def initDialogState : DialogState := ⟨initResult, true⟩

/-- Handler `ok_proceed` (lines 333-342): strip the entry text; if fewer than
10 characters, show a blocking error and return (dialog stays open, result
untouched); otherwise store contact/preference, clear `cancelled`, destroy. -/
def ok_proceed (entry : String) (whatsapp : Bool) (st : DialogState) :
    DialogState × List DialogEv :=
  let contact := pyStrip entry
  if contact.length < 10 then
    (st, [DialogEv.showError "Invalid Contact"
            "Please enter a valid phone number with at least 10 digits."])
  else
    (⟨⟨contact, whatsapp, false⟩, false⟩, [DialogEv.destroyWindow])

/-- Handler `cancel_close` (lines 344-346): set `result['cancelled'] = True`
(other keys untouched), destroy. -/
def cancel_close (st : DialogState) : DialogState × List DialogEv :=
  (⟨⟨st.result.contact, st.result.whatsapp_preference, true⟩, false⟩,
   [DialogEv.destroyWindow])

/-- Handler `on_closing` (lines 374-376), bound to the window-close control
(line 378): set `result['cancelled'] = True` (other keys untouched),
destroy. -/
def on_closing (st : DialogState) : DialogState × List DialogEv :=
  (⟨⟨st.result.contact, st.result.whatsapp_preference, true⟩, false⟩,
   [DialogEv.destroyWindow])

/-- One event-loop step: while the window is open, dispatch the user action to
its handler; after `dialog.destroy()` the mainloop has exited and no further
handlers run. -/
def dialogStep (st : DialogState) (a : DialogAction) : DialogState × List DialogEv :=
  if st.isOpen then
    match a with
    | DialogAction.confirm e w => ok_proceed e w st
    | DialogAction.cancel => cancel_close st
    | DialogAction.close => on_closing st
  else (st, [])

/-- State reached after a sequence of user actions, starting from the freshly
built dialog. -/
def runDialogState (acts : List DialogAction) (st : DialogState) : DialogState :=
  acts.foldl (fun s a => (dialogStep s a).1) st

/-- Full run accumulating the emitted events as well. -/
def runDialog (acts : List DialogAction) : DialogState × List DialogEv :=
  acts.foldl (fun acc a =>
    let r := dialogStep acc.1 a
    (r.1, acc.2 ++ r.2)) (initDialogState, [])

/-- The return value of `show_emergency_contact_dialog` for a session driven
by the given user actions (line 383:
`return result if not result['cancelled'] else None`). -/
def show_emergency_contact_dialog (acts : List DialogAction) : Option ContactResult :=
  let st := (runDialog acts).1
  if st.result.cancelled then none else some st.result

/-! ## Splash screen (`SplashScreen`, lines 22-201) -/

/-- Observable events of the splash controller: allocation of a fresh
top-level surface (`tk.Tk()`), a progress-bar value update, a status-label
text update, a `time.sleep`, surface destruction (`root.destroy()`),
an error printed by `update_progress`'s except branch, and invocation of the
completion callback. -/
inductive SplashEv where
  | allocSurface (id : Nat)
  | setProgress (v : ℚ)
  | setStatus (t : String)
  | sleep (t : ℚ)
  | destroySurface (id : Nat)
  | logError (msg : String)
  | callbackInvoked
deriving DecidableEq

/-- State of a `SplashScreen` object.  `root`, `progress_var` and
`status_label` mirror the attributes set to `None` in `__init__` (lines
30-34) and populated by `create_splash`; `allocCount` is ghost
instrumentation giving each allocated surface a distinct identifier so that
reuse versus fresh allocation is observable. -/
structure SplashScreen where
  duration : ℚ
  root : Option Nat
  progress_var : Option ℚ
  status_label : Option String
  allocCount : Nat
deriving DecidableEq

/-- A freshly constructed `SplashScreen(duration)` (lines 23-34). -/
def SplashScreen.init (duration : ℚ) : SplashScreen :=
  ⟨duration, none, none, none, 0⟩

/-- Embedding of `create_splash` (lines 36-139): unconditionally allocates a new top-level
surface (`self.root = tk.Tk()`, line 38), a fresh `DoubleVar` (value 0.0,
line 105) and the status label with text "Initializing..." (line 127);
`duration` is untouched.  There is no already-created guard inside this
method. -/
def create_splash (s : SplashScreen) : SplashScreen × List SplashEv :=
  (⟨s.duration, some s.allocCount, some 0, some "Initializing...", s.allocCount + 1⟩,
   [SplashEv.allocSurface s.allocCount])

/-- Embedding of `update_progress` (lines 141-153): guarded by
`if self.progress_var and self.status_label and self.root` (line 143); when
the guard holds, sets the progress value and, if the status text is
non-empty, replaces the label text (all other attributes unchanged);
otherwise returns silently (no state change, no events, nothing printed). -/
def update_progress (value : ℚ) (status_text : String) (s : SplashScreen) :
    SplashScreen × List SplashEv :=
  if s.progress_var.isSome && s.status_label.isSome && s.root.isSome then
    (⟨s.duration, s.root, some value,
        if status_text = "" then s.status_label else some status_text,
        s.allocCount⟩,
     SplashEv.setProgress value ::
       (if status_text = "" then [] else [SplashEv.setStatus status_text]))
  else
    (s, [])

/-- Embedding of `close_splash` (lines 197-201): if a surface exists, destroy it and clear
the reference (other attributes are not cleared); otherwise do nothing. -/
def close_splash (s : SplashScreen) : SplashScreen × List SplashEv :=
  match s.root with
  | some id => (⟨s.duration, none, s.progress_var, s.status_label, s.allocCount⟩,
                [SplashEv.destroySurface id])
  | none => (s, [])

/-- The scripted step list of `show_splash` (lines 170-178). -/
def splashSteps : List (ℚ × String) :=
  [(10, "Loading modules..."),
   (25, "Initializing camera..."),
   (40, "Loading AI models..."),
   (60, "Setting up eye tracking..."),
   (80, "Configuring interface..."),
   (95, "Finalizing setup..."),
   (100, "Ready!")]

/-- The `for progress, status in steps` loop of `show_splash` (lines
182-185): each iteration calls `update_progress` and then sleeps for the
per-step duration. -/
def playSteps (dur : ℚ) : List (ℚ × String) → SplashScreen → SplashScreen × List SplashEv
  | [], s => (s, [])
  | x :: rest, s =>
      let u := update_progress x.1 x.2 s
      let r := playSteps dur rest u.1
      (r.1, u.2 ++ SplashEv.sleep dur :: r.2)

/-- Embedding of `show_splash` (lines 155-195): create the surface when absent
(`if not self.root`, line 162), play the scripted steps sleeping
`duration / len(steps)` after each, hold 0.5s, destroy the surface, then
invoke the callback when one was provided. -/
def show_splash (hasCallback : Bool) (s : SplashScreen) : SplashScreen × List SplashEv :=
  let c := match s.root with
    | none => create_splash s
    | some _ => (s, [])
  let step_duration := s.duration / (splashSteps.length : ℚ)
  let r := playSteps step_duration splashSteps c.1
  let f := close_splash r.1
  (f.1, c.2 ++ r.2 ++ SplashEv.sleep ((1 : ℚ) / 2) :: f.2
          ++ (if hasCallback then [SplashEv.callbackInvoked] else []))

/-! ## Trace observers -/

/-- Adjacent (progress, status) update pairs reported in a splash trace. -/
def reportedUpdates : List SplashEv → List (ℚ × String)
  | SplashEv.setProgress p :: SplashEv.setStatus t :: rest => (p, t) :: reportedUpdates rest
  | _ :: rest => reportedUpdates rest
  | [] => []

/-- Number of completion-callback invocations in a trace. -/
def countCallbacks : List SplashEv → Nat
  | [] => 0
  | SplashEv.callbackInvoked :: rest => countCallbacks rest + 1
  | _ :: rest => countCallbacks rest

/-- Number of surface allocations in a trace. -/
def countAllocs : List SplashEv → Nat
  | [] => 0
  | SplashEv.allocSurface _ :: rest => countAllocs rest + 1
  | _ :: rest => countAllocs rest

/-- Number of logged errors in a trace. -/
def countLogs : List SplashEv → Nat
  | [] => 0
  | SplashEv.logError _ :: rest => countLogs rest + 1
  | _ :: rest => countLogs rest

/-- The events emitted by one pass of the step loop over the given steps from
a live surface: per step, a progress update, a status update, and the
per-step sleep. -/
def stepsTrace (dur : ℚ) : List (ℚ × String) → List SplashEv
  | [] => []
  | x :: rest =>
      SplashEv.setProgress x.1 :: SplashEv.setStatus x.2 :: SplashEv.sleep dur ::
        stepsTrace dur rest

/-- The trace of a scripted run started on a fresh controller: one surface
allocation followed by the step-loop events. -/
def splashTrace (d : ℚ) : List SplashEv :=
  SplashEv.allocSurface 0 :: stepsTrace (d / (splashSteps.length : ℚ)) splashSteps

/-! ## Evaluation lemmas for the splash run -/

/-- With all three widgets present and a non-empty status text,
`update_progress` stores the value and the text and reports both. -/
theorem update_progress_live (v : ℚ) (t : String) (d : ℚ) (i : Nat) (pv : ℚ)
    (sl : String) (c : Nat) (ht : ¬t = "") :
    update_progress v t ⟨d, some i, some pv, some sl, c⟩ =
      (⟨d, some i, some v, some t, c⟩,
       [SplashEv.setProgress v, SplashEv.setStatus t]) := by
  simp [update_progress, ht]

/-- Playing the step loop on a live surface with non-empty labels updates the
displayed state step by step and emits exactly the per-step events; the
surface itself (and its identity) is untouched. -/
theorem playSteps_live (dur d : ℚ) (i c : Nat) (steps : List (ℚ × String))
    (pv : ℚ) (sl : String) (h : ∀ x ∈ steps, ¬x.2 = "") :
    playSteps dur steps ⟨d, some i, some pv, some sl, c⟩ =
      (⟨d, some i, some (steps.foldl (fun _ x => x.1) pv),
          some (steps.foldl (fun _ x => x.2) sl), c⟩,
       stepsTrace dur steps) := by
  induction steps generalizing pv sl with
  | nil => simp [playSteps, stepsTrace]
  | cons x rest ih =>
      have hx : ¬x.2 = "" := h x (List.mem_cons_self x rest)
      have hrest : ∀ y ∈ rest, ¬y.2 = "" := fun y hy => h y (List.mem_cons_of_mem x hy)
      simp only [playSteps, update_progress_live x.1 x.2 d i pv sl c hx,
        ih x.1 x.2 hrest, List.foldl_cons, stepsTrace, List.cons_append,
        List.nil_append]

/-! ## Book-keeping lemmas for the dialog run -/

/-- State component of the accumulating fold equals the state-only fold. -/
theorem runDialog_foldl_fst (acts : List DialogAction) (st : DialogState)
    (evs : List DialogEv) :
    (acts.foldl (fun acc a =>
        let r := dialogStep acc.1 a
        (r.1, acc.2 ++ r.2)) (st, evs)).1 = runDialogState acts st := by
  induction acts generalizing st evs with
  | nil => rfl
  | cons a rest ih => simpa [runDialogState, List.foldl_cons] using ih (dialogStep st a).1 _

/-- The final dialog state of a run is the state-only fold from the initial
state. -/
theorem runDialog_fst (acts : List DialogAction) :
    (runDialog acts).1 = runDialogState acts initDialogState :=
  runDialog_foldl_fst acts initDialogState []

/-- Invariant maintained by every dialog step: while the window is open the
result record is still its initial value, and whenever `cancelled` is set the
stored contact is the empty string. -/
def dialogInv (st : DialogState) : Prop :=
  (st.isOpen = true → st.result = initResult) ∧
  (st.result.cancelled = true → st.result.contact = "")

/-- Every handler dispatch preserves the dialog invariant. -/
theorem dialogStep_inv (st : DialogState) (a : DialogAction) (h : dialogInv st) :
    dialogInv (dialogStep st a).1 := by
  by_cases ho : st.isOpen
  · cases a with
    | confirm e w =>
        by_cases hv : (pyStrip e).length < 10
        · simpa [dialogStep, ho, ok_proceed, hv] using h
        · simp [dialogStep, ho, ok_proceed, hv, dialogInv]
    | cancel =>
        have hr := h.1 (by simpa using ho)
        simp [dialogStep, ho, cancel_close, dialogInv, hr, initResult]
    | close =>
        have hr := h.1 (by simpa using ho)
        simp [dialogStep, ho, on_closing, dialogInv, hr, initResult]
  · simpa [dialogStep, ho] using h

/-- The dialog invariant holds along every run. -/
theorem runDialogState_inv (acts : List DialogAction) (st : DialogState)
    (h : dialogInv st) : dialogInv (runDialogState acts st) := by
  induction acts generalizing st with
  | nil => exact h
  | cons a rest ih =>
      simpa [runDialogState, List.foldl_cons] using ih _ (dialogStep_inv st a h)

/-- The initial dialog state satisfies the invariant. -/
theorem initDialogState_inv : dialogInv initDialogState :=
  ⟨fun _ => rfl, fun _ => rfl⟩

/-! ## Evaluation lemmas for the dialog run -/

theorem show_dialog_eq (acts : List DialogAction) :
    show_emergency_contact_dialog acts =
      if (runDialogState acts initDialogState).result.cancelled then none
      else some (runDialogState acts initDialogState).result := by
  simp [show_emergency_contact_dialog, runDialog_fst]

theorem runDialogState_append (l1 l2 : List DialogAction) (st : DialogState) :
    runDialogState (l1 ++ l2) st = runDialogState l2 (runDialogState l1 st) := by
  simp [runDialogState, List.foldl_append]

theorem runDialogState_cons (a : DialogAction) (l : List DialogAction) (st : DialogState) :
    runDialogState (a :: l) st = runDialogState l (dialogStep st a).1 := by
  simp [runDialogState, List.foldl_cons]

theorem dialogStep_confirm_valid (st : DialogState) (e : String) (w : Bool)
    (hOpen : st.isOpen = true) (hnl : ¬(pyStrip e).length < 10) :
    dialogStep st (DialogAction.confirm e w) =
      (⟨⟨pyStrip e, w, false⟩, false⟩, [DialogEv.destroyWindow]) := by
  simp [dialogStep, hOpen, ok_proceed, hnl]

theorem dialogStep_confirm_invalid (st : DialogState) (e : String) (w : Bool)
    (hOpen : st.isOpen = true) (hshort : (pyStrip e).length < 10) :
    dialogStep st (DialogAction.confirm e w) =
      (st, [DialogEv.showError "Invalid Contact"
              "Please enter a valid phone number with at least 10 digits."]) := by
  simp [dialogStep, hOpen, ok_proceed, hshort]

theorem dialogStep_cancel (st : DialogState) (hOpen : st.isOpen = true) :
    dialogStep st DialogAction.cancel =
      (⟨⟨st.result.contact, st.result.whatsapp_preference, true⟩, false⟩,
       [DialogEv.destroyWindow]) := by
  simp [dialogStep, hOpen, cancel_close]

theorem dialogStep_close (st : DialogState) (hOpen : st.isOpen = true) :
    dialogStep st DialogAction.close =
      (⟨⟨st.result.contact, st.result.whatsapp_preference, true⟩, false⟩,
       [DialogEv.destroyWindow]) := by
  simp [dialogStep, hOpen, on_closing]

theorem confirm_valid_eq (acts : List DialogAction) (e : String) (w : Bool)
    (hOpen : (runDialogState acts initDialogState).isOpen = true)
    (hnl : ¬(pyStrip e).length < 10) :
    show_emergency_contact_dialog (acts ++ [DialogAction.confirm e w]) =
      some ⟨pyStrip e, w, false⟩ := by
  rw [show_dialog_eq, runDialogState_append, runDialogState_cons,
    dialogStep_confirm_valid _ _ _ hOpen hnl]
  rfl

theorem append_cancel_none (acts : List DialogAction)
    (hOpen : (runDialogState acts initDialogState).isOpen = true) :
    show_emergency_contact_dialog (acts ++ [DialogAction.cancel]) = none := by
  rw [show_dialog_eq, runDialogState_append, runDialogState_cons,
    dialogStep_cancel _ hOpen]
  rfl

theorem append_close_none (acts : List DialogAction)
    (hOpen : (runDialogState acts initDialogState).isOpen = true) :
    show_emergency_contact_dialog (acts ++ [DialogAction.close]) = none := by
  rw [show_dialog_eq, runDialogState_append, runDialogState_cons,
    dialogStep_close _ hOpen]
  rfl

theorem invalid_confirm_skip (acts : List DialogAction) (e : String) (w : Bool)
    (rest : List DialogAction)
    (hOpen : (runDialogState acts initDialogState).isOpen = true)
    (hshort : (pyStrip e).length < 10) :
    show_emergency_contact_dialog (acts ++ DialogAction.confirm e w :: rest) =
      show_emergency_contact_dialog (acts ++ rest) := by
  rw [show_dialog_eq, show_dialog_eq, runDialogState_append, runDialogState_append,
    runDialogState_cons, dialogStep_confirm_invalid _ _ _ hOpen hshort]

theorem show_some_not_cancelled (acts : List DialogAction) (r : ContactResult)
    (h : show_emergency_contact_dialog acts = some r) : r.cancelled = false := by
  rw [show_dialog_eq] at h
  by_cases hc : (runDialogState acts initDialogState).result.cancelled = true
  · simp [hc] at h
  · rw [if_neg hc] at h
    have hr := Option.some.inj h
    simp only [Bool.not_eq_true] at hc
    rw [← hr]
    exact hc

/-! ## Claims -/

/-- Claim C1: `show_emergency_contact_dialog` returns the result object when the
user confirms with valid input, and returns `None` (never a `ContactResult`
with `cancelled` set) when the user cancels or closes the window. -/
theorem c1_return_contract (acts : List DialogAction)
    (hOpen : (runDialog acts).1.isOpen = true) :
    (∀ (entry : String) (w : Bool), 10 ≤ (pyStrip entry).length →
        show_emergency_contact_dialog (acts ++ [DialogAction.confirm entry w]) =
          some ⟨pyStrip entry, w, false⟩) ∧
    show_emergency_contact_dialog (acts ++ [DialogAction.cancel]) = none ∧
    show_emergency_contact_dialog (acts ++ [DialogAction.close]) = none ∧
    (∀ (acts2 : List DialogAction) (r : ContactResult),
        show_emergency_contact_dialog acts2 = some r → r.cancelled = false) := by
  rw [runDialog_fst] at hOpen
  refine ⟨fun entry w hlen => ?_, append_cancel_none acts hOpen,
    append_close_none acts hOpen, show_some_not_cancelled⟩
  exact confirm_valid_eq acts entry w hOpen (by omega)

/-- C1 witness: instance of the return contract for the empty prefix. -/
theorem c1_return_contract_witness :
    (runDialog ([] : List DialogAction)).1.isOpen = true ∧
    ((∀ (entry : String) (w : Bool), 10 ≤ (pyStrip entry).length →
        show_emergency_contact_dialog ([] ++ [DialogAction.confirm entry w]) =
          some ⟨pyStrip entry, w, false⟩) ∧
     show_emergency_contact_dialog ([] ++ [DialogAction.cancel]) = none ∧
     show_emergency_contact_dialog ([] ++ [DialogAction.close]) = none ∧
     (∀ (acts2 : List DialogAction) (r : ContactResult),
        show_emergency_contact_dialog acts2 = some r → r.cancelled = false)) :=
  ⟨rfl, c1_return_contract [] rfl⟩

/-- Claim C2: the scripted run reports exactly the percentages
10, 25, 40, 60, 80, 95, 100 in order, each with its fixed label, for every
configured duration (and with or without a completion callback). -/
theorem c2_scripted_sequence (d : ℚ) (hasCallback : Bool) :
    reportedUpdates (show_splash hasCallback (SplashScreen.init d)).2 =
      [((10 : ℚ), "Loading modules..."),
       ((25 : ℚ), "Initializing camera..."),
       ((40 : ℚ), "Loading AI models..."),
       ((60 : ℚ), "Setting up eye tracking..."),
       ((80 : ℚ), "Configuring interface..."),
       ((95 : ℚ), "Finalizing setup..."),
       ((100 : ℚ), "Ready!")] := by
  have h : ∀ x ∈ splashSteps, ¬x.2 = "" := by decide
  simp only [show_splash, SplashScreen.init, create_splash]
  rw [playSteps_live _ _ _ _ _ _ _ h]
  cases hasCallback <;> rfl

/-- Claim C3: confirming from an open dialog with a trimmed input of length at
least 10 and checkbox state `w` yields exactly
`ContactResult(trimmedInput, w, cancelled := false)`. -/
theorem c3_confirm_valid_result (acts : List DialogAction) (entry : String)
    (w : Bool) (hOpen : (runDialog acts).1.isOpen = true)
    (hlen : 10 ≤ (pyStrip entry).length) :
    show_emergency_contact_dialog (acts ++ [DialogAction.confirm entry w]) =
      some ⟨pyStrip entry, w, false⟩ := by
  rw [runDialog_fst] at hOpen
  exact confirm_valid_eq acts entry w hOpen (by omega)

/-- C3 witness: input "+91 9876543210" with preference `true` yields exactly
that contact with `cancelled := false`. -/
theorem c3_confirm_valid_result_witness :
    (runDialog ([] : List DialogAction)).1.isOpen = true ∧
    10 ≤ (pyStrip "+91 9876543210").length ∧
    show_emergency_contact_dialog [DialogAction.confirm "+91 9876543210" true] =
      some ⟨"+91 9876543210", true, false⟩ :=
  ⟨rfl, by decide, c3_confirm_valid_result [] "+91 9876543210" true rfl (by decide)⟩

/-- Claim C4: a confirm attempt whose trimmed input is shorter than 10 characters
shows a blocking error notification, leaves the dialog open in its prior
state, and contributes nothing to the value eventually returned to the
caller. -/
theorem c4_invalid_confirm (acts : List DialogAction) (entry : String) (w : Bool)
    (hOpen : (runDialog acts).1.isOpen = true)
    (hshort : (pyStrip entry).length < 10) :
    dialogStep (runDialog acts).1 (DialogAction.confirm entry w) =
      ((runDialog acts).1,
       [DialogEv.showError "Invalid Contact"
          "Please enter a valid phone number with at least 10 digits."]) ∧
    (∀ rest : List DialogAction,
       show_emergency_contact_dialog (acts ++ DialogAction.confirm entry w :: rest) =
         show_emergency_contact_dialog (acts ++ rest)) := by
  rw [runDialog_fst] at hOpen ⊢
  exact ⟨dialogStep_confirm_invalid _ _ _ hOpen hshort,
    fun rest => invalid_confirm_skip acts entry w rest hOpen hshort⟩

/-- C4 witness: instance for input "12345" on the freshly opened dialog. -/
theorem c4_invalid_confirm_witness :
    (runDialog ([] : List DialogAction)).1.isOpen = true ∧
    (pyStrip "12345").length < 10 ∧
    (dialogStep (runDialog ([] : List DialogAction)).1 (DialogAction.confirm "12345" false) =
       ((runDialog ([] : List DialogAction)).1,
        [DialogEv.showError "Invalid Contact"
           "Please enter a valid phone number with at least 10 digits."]) ∧
     (∀ rest : List DialogAction,
        show_emergency_contact_dialog ([] ++ DialogAction.confirm "12345" false :: rest) =
          show_emergency_contact_dialog ([] ++ rest))) :=
  ⟨rfl, by decide, c4_invalid_confirm [] "12345" false rfl (by decide)⟩

/-- Claim C5: in every reachable state of the dialog run, `cancelled = true`
implies the stored contact number is the empty string. -/
theorem c5_cancelled_empty_contact (acts : List DialogAction)
    (h : (runDialog acts).1.result.cancelled = true) :
    (runDialog acts).1.result.contact = "" := by
  rw [runDialog_fst] at h ⊢
  exact (runDialogState_inv acts initDialogState initDialogState_inv).2 h

/-- C5 witness: instance after a cancel action. -/
theorem c5_cancelled_empty_contact_witness :
    (runDialog [DialogAction.cancel]).1.result.cancelled = true ∧
    (runDialog [DialogAction.cancel]).1.result.contact = "" :=
  ⟨rfl, c5_cancelled_empty_contact [DialogAction.cancel] rfl⟩

/-- Claim C6 counterexample: calling `update_progress` before `create_splash` (so
the surface does not exist) is a no-op that emits no events at all; in
particular, contrary to the claim, no error is logged on this path (the
`print` in the source sits inside the try-block, which is only reached when
all three widgets exist). -/
theorem c6_no_log_counterexample :
    update_progress 50 "x" (SplashScreen.init 3) = (SplashScreen.init 3, []) ∧
    countLogs (update_progress 50 "x" (SplashScreen.init 3)).2 = 0 :=
  ⟨rfl, rfl⟩

/-- Claim C6 (amended): calling `update_progress` with any value when the display
surface does not exist (before `create_splash` or after `close_splash`) does
not raise and is a silent no-op: the state is unchanged and no event — in
particular no error log — is produced. -/
theorem c6_noop_without_surface (v : ℚ) (t : String) (s : SplashScreen)
    (h : s.root = none) : update_progress v t s = (s, []) := by
  simp [update_progress, h]

/-- Claim C6 witness: instance on a freshly constructed controller. -/
theorem c6_noop_without_surface_witness :
    (SplashScreen.init 3).root = none ∧
    update_progress 50 "x" (SplashScreen.init 3) = (SplashScreen.init 3, []) :=
  ⟨rfl, c6_noop_without_surface 50 "x" (SplashScreen.init 3) rfl⟩

/-- Claim C7: a full scripted run ends its trace with the 100%/"Ready!" update,
the per-step sleep, the fixed extra 0.5s hold, the surface destruction, and
— exactly when a callback is provided — a single callback invocation, in
that order. -/
theorem c7_final_hold_then_destroy_then_callback (d : ℚ) :
    (show_splash true (SplashScreen.init d)).2 =
      splashTrace d ++ [SplashEv.sleep ((1 : ℚ) / 2), SplashEv.destroySurface 0,
        SplashEv.callbackInvoked] ∧
    (show_splash false (SplashScreen.init d)).2 =
      splashTrace d ++ [SplashEv.sleep ((1 : ℚ) / 2), SplashEv.destroySurface 0] ∧
    countCallbacks (show_splash true (SplashScreen.init d)).2 = 1 ∧
    countCallbacks (show_splash false (SplashScreen.init d)).2 = 0 := by
  have h : ∀ x ∈ splashSteps, ¬x.2 = "" := by decide
  refine ⟨?_, ?_, ?_, ?_⟩ <;>
    · simp only [show_splash, SplashScreen.init, create_splash]
      rw [playSteps_live _ _ _ _ _ _ _ h]
      rfl

/-- Claim C8: `close_splash` is idempotent: the second call is a no-op on the
already destroyed state and neither call logs an error. -/
theorem c8_close_idempotent (s : SplashScreen) :
    close_splash (close_splash s).1 = ((close_splash s).1, []) ∧
    countLogs (close_splash s).2 = 0 ∧
    countLogs (close_splash (close_splash s).1).2 = 0 := by
  cases h : s.root with
  | none => simp [close_splash, h, countLogs]
  | some id => simp [close_splash, h, countLogs]

/-- Claim C9 counterexample: `create_splash` itself has no idempotent guard: a
second direct call on an already-created controller allocates a fresh
surface (id 1) instead of reusing the existing one (id 0). -/
theorem c9_create_always_allocates :
    (create_splash (SplashScreen.init 3)).1.root = some 0 ∧
    (create_splash (create_splash (SplashScreen.init 3)).1).2 =
      [SplashEv.allocSurface 1] ∧
    (create_splash (create_splash (SplashScreen.init 3)).1).1.root = some 1 :=
  ⟨rfl, rfl, rfl⟩

/-- Claim C9 (amended): the idempotent guard sits at the call site in
`show_splash`, not in `create_splash`: a run started with an existing
surface allocates nothing and keeps using (and finally destroys) that very
surface, a run from a fresh controller allocates exactly once, while
`create_splash` itself always allocates. -/
theorem c9_guard_in_show_splash (d p0 : ℚ) (l0 : String) (i c : Nat) (b : Bool) :
    countAllocs (show_splash b ⟨d, some i, some p0, some l0, c⟩).2 = 0 ∧
    SplashEv.destroySurface i ∈ (show_splash b ⟨d, some i, some p0, some l0, c⟩).2 ∧
    countAllocs (show_splash b (SplashScreen.init d)).2 = 1 ∧
    (∀ s : SplashScreen, countAllocs (create_splash s).2 = 1) := by
  have h : ∀ x ∈ splashSteps, ¬x.2 = "" := by decide
  refine ⟨?_, ?_, ?_, fun s => rfl⟩
  · simp only [show_splash]
    rw [playSteps_live _ _ _ _ _ _ _ h]
    cases b <;> rfl
  · simp only [show_splash]
    rw [playSteps_live _ _ _ _ _ _ _ h]
    cases b <;> simp [splashSteps, stepsTrace, close_splash]
  · simp only [show_splash, SplashScreen.init, create_splash]
    rw [playSteps_live _ _ _ _ _ _ _ h]
    cases b <;> rfl

/-- Claim C10: the confirm validation counts every character of the trimmed input
toward the minimum length of 10 and requires no digit: a single-confirm
session succeeds exactly when the trimmed input has length at least 10, and
the all-letter input "abcdefghij" is accepted and produces a result. -/
theorem c10_length_only_validation :
    (∀ (entry : String) (w : Bool),
        (show_emergency_contact_dialog [DialogAction.confirm entry w]).isSome = true ↔
          10 ≤ (pyStrip entry).length) ∧
    show_emergency_contact_dialog [DialogAction.confirm "abcdefghij" false] =
      some ⟨"abcdefghij", false, false⟩ := by
  refine ⟨fun entry w => ?_, rfl⟩
  by_cases hlen : (pyStrip entry).length < 10
  · have hskip := invalid_confirm_skip [] entry w [] rfl hlen
    simp only [List.nil_append, List.append_nil] at hskip
    rw [hskip]
    simp only [show_emergency_contact_dialog, runDialog, List.foldl_nil,
      initDialogState, initResult]
    constructor
    · intro hc
      simp at hc
    · omega
  · have hok := confirm_valid_eq [] entry w rfl hlen
    simp only [List.nil_append] at hok
    rw [hok]
    simp
    omega
